import Mathlib

/-!
Shallow embedding of `src/agent/slack-app/slack_bot.py` (class `SlackBot`).

Python strings are modelled by Lean `String`; the Python string operations
used by the source (`startswith`, slicing, `strip`, `lower`, truthiness)
are given codepoint-level definitions over `String.data`, matching Python's
codepoint semantics.  Python exceptions are modelled by `Except String`
values (`str(e)` is the carried message); the Slack Web API call
`chat_postMessage` is modelled by a `SendOutcome` parameter saying whether
the call succeeds, raises `SlackApiError`, or raises some other exception.
-/

namespace SlackBot

/-- Python `s.startswith(p)`: the first `len(p)` codepoints of `s` equal `p`. -/
def pyStartsWith (s p : String) : Bool :=
  s.data.take p.data.length == p.data

/-- Python `s[n:]` for `n ≥ 0`: drop the first `n` codepoints. -/
def pyDrop (s : String) (n : Nat) : String :=
  ⟨s.data.drop n⟩

/-- Python whitespace test used by `str.strip()` (ASCII whitespace). -/
def pyIsSpace (c : Char) : Bool :=
  c = ' ' || c = '\t' || c = '\n' || c = '\r' || c = '\x0b' || c = '\x0c'

/-- Strip leading and trailing whitespace from a codepoint list. -/
def stripList (l : List Char) : List Char :=
  ((l.dropWhile pyIsSpace).reverse.dropWhile pyIsSpace).reverse

/-- Python `s.strip()`. -/
def pyStrip (s : String) : String :=
  ⟨stripList s.data⟩

/-- Python `s.lower()` (ASCII case mapping, as used on the command word). -/
def pyLower (s : String) : String :=
  ⟨s.data.map Char.toLower⟩

/-- Result of classifying an inbound message text (spec §4.2). -/
inductive Command where
  | ignore
  | help
  | task (body : String)
deriving DecidableEq

/-- `slack_bot.py` line 147 / 150: Python `text and text.startswith(f"{prefix} ")`. -/
def isCommandText (pfx text : String) : Bool :=
  !(text == "") && pyStartsWith text (pfx ++ " ")

/-- `slack_bot.py` line 167: `task = text[len(self.command_prefix) + 1:].strip()`. -/
def commandTask (pfx text : String) : String :=
  pyStrip (pyDrop text (pfx.length + 1))

/-- `slack_bot.py` line 170: the recognised help words. -/
def helpWords : List String :=
  ["help", "--help", "-h"]

/-- `slack_bot.py` line 170: `task.lower() in ["help", "--help", "-h"]`. -/
def isHelp (task : String) : Bool :=
  helpWords.contains (pyLower task)

/-- The command classification performed by the source, assembled from the
check at line 147 of `_handle_event` and lines 167-170 of `_handle_command`. -/
def classify (pfx text : String) : Command :=
  if isCommandText pfx text then
    if isHelp (commandTask pfx text) then .help
    else .task (commandTask pfx text)
  else .ignore

/-- Modelled from the spec (§4.2 Command Parser), for comparison with
`classify`: if `text` does not start with `prefix` followed by a single
space the result is `Ignore`; otherwise strip `prefix + " "`, trim
surrounding whitespace; if the trimmed remainder case-insensitively equals
"help", "--help" or "-h" the result is `Help`, else `Task(trimmed)`. -/
def parseSpec (pfx text : String) : Command :=
  if pyStartsWith text (pfx ++ " ") then
    if pyLower (pyStrip (pyDrop text (pfx ++ " ").length)) = "help" ∨
       pyLower (pyStrip (pyDrop text (pfx ++ " ").length)) = "--help" ∨
       pyLower (pyStrip (pyDrop text (pfx ++ " ").length)) = "-h" then .help
    else .task (pyStrip (pyDrop text (pfx ++ " ").length))
  else .ignore

/-- A Slack event payload, with exactly the keys `_handle_event` reads.
Absent keys are `none`. -/
structure SlackEvent where
  type : Option String
  subtype : Option String
  text : Option String
  user : Option String
  channel : Option String
  ts : Option String
deriving DecidableEq

/-- What `_handle_event` does with an event (which early return it takes,
or the dispatch to `_handle_command`). -/
inductive EventAction where
  | dropNoId
  | dropDuplicate
  | dropNonMessage
  | dropBotMessage
  | dispatch (text user channel : String) (ts : Option String)
  | dropMissingFields
  | noCommand
deriving DecidableEq

/-- The deduplication step of `_handle_event` (lines 127-131), viewed as the
spec's `admit(id) -> bool` contract: membership test on the seen-set,
recording the identifier when fresh. -/
def admitEvent (seen : List String) (id : String) : Bool × List String :=
  if id ∈ seen then (false, seen) else (true, id :: seen)

/-- `SlackBot._handle_event` (lines 113-154): returns the updated seen-set
(`processed_events`) and the action taken. -/
def handleEvent (pfx : String) (seen : List String) (event : SlackEvent)
    (event_id : String) : List String × EventAction :=
  if event_id = "" then (seen, .dropNoId)
  else if event_id ∈ seen then (seen, .dropDuplicate)
  else
    let seen1 := event_id :: seen
    if event.type ≠ some "message" then (seen1, .dropNonMessage)
    else if event.subtype = some "bot_message" then (seen1, .dropBotMessage)
    else
      let text := event.text.getD ""
      if isCommandText pfx text then
        match event.user, event.channel with
        | some u, some c => (seen1, .dispatch text u c event.ts)
        | _, _ => (seen1, .dropMissingFields)
      else (seen1, .noCommand)

/-- One action result inside the agent history (`result[i].extracted_content`). -/
structure ActionResult where
  extracted_content : Option String
deriving DecidableEq

/-- One step of the agent history (`history[i].result`). -/
structure AgentHistoryItem where
  result : List ActionResult
deriving DecidableEq

/-- The `AgentHistoryList` returned by `agent.run`: a done flag and the
ordered step history. -/
structure AgentHistoryList where
  is_done : Bool
  history : List AgentHistoryItem
deriving DecidableEq

/-- The body of the `try` block of `run_agent` (lines 217-229).  The input
models `await agent.run(...)`: `.error e` means the construction or run
raised an exception with message `e`.  Indexing `history[-1]` or
`result[0]` on an empty list raises `IndexError("list index out of range")`,
modelled as the corresponding `.error`. -/
def runAgentBody (outcome : Except String AgentHistoryList) :
    Except String String :=
  match outcome with
  | .error e => .error e
  | .ok r =>
    let extracted : Except String (Option String) :=
      if r.is_done then
        match r.history.getLast? with
        | none => .error "list index out of range"
        | some last =>
          match last.result.head? with
          | none => .error "list index out of range"
          | some first => .ok first.extracted_content
      else .ok none
    match extracted with
    | .error e => .error e
    | .ok (some m) => .ok m
    | .ok none => .ok "Task completed, but no specific result was returned."

/-- `SlackBot.run_agent` (lines 206-233): the `try`/`except` wrapper around
`runAgentBody`; any raised exception is converted to an error string. -/
def runAgent (outcome : Except String AgentHistoryList) : String :=
  match runAgentBody outcome with
  | .ok m => m
  | .error e => "Error during task execution: " ++ e

/-- Behaviour of one `chat_postMessage` call: success, a raised
`SlackApiError`, or some other raised exception. -/
inductive SendOutcome where
  | ok
  | apiError (code : String)
  | fatal (msg : String)
deriving DecidableEq

/-- `SlackBot.send_message` (lines 235-247): `SlackApiError` is caught and
logged; any other exception escapes to the caller (`.error` with `str(e)`). -/
def sendMessage (o : SendOutcome) : Except String Unit :=
  match o with
  | .ok => .ok ()
  | .apiError _ => .ok ()
  | .fatal m => .error m

/-- A record of one attempted `send_message` call: its arguments and the
outcome of the underlying `chat_postMessage`. -/
structure SentCall where
  channel : String
  text : String
  thread_ts : Option String
  outcome : SendOutcome
deriving DecidableEq

/-- Observable effects of one `_handle_command` invocation: the attempted
sends in order, the task string passed to `run_agent` (if reached), whether
the `except` branch at lines 201-204 executed, and the exception escaping
`_handle_command`, if any. -/
structure CommandEffects where
  posts : List SentCall
  delegated : Option String
  errorBranch : Bool
  raised : Option String
deriving DecidableEq

/-- Acknowledgment text, line 187. -/
def ackText (user task : String) : String :=
  "<@" ++ user ++ "> I\x27m working on: *" ++ task ++ "*\nThis may take a few minutes..."

/-- Help text, lines 171-178. -/
def helpText (pfx : String) : String :=
  "*Browser Use Slack Bot*\n\n" ++
  "Use `" ++ pfx ++ " <task>` to run a browser task.\n\n" ++
  "Examples:\n" ++
  "• `" ++ pfx ++ " Compare the price of gpt-4o and DeepSeek-V3`\n" ++
  "• `" ++ pfx ++ " Find the latest news about AI on techcrunch.com`\n" ++
  "• `" ++ pfx ++ " Search for job openings at OpenAI and summarize the requirements`"

/-- Success reply text, line 198. -/
def successText (user msg : String) : String :=
  "<@" ++ user ++ "> Task completed:\n\n" ++ msg

/-- Error reply text, line 202 (note: no user mention). -/
def errorText (e : String) : String :=
  "Error during task execution: " ++ e

/-- `SlackBot._handle_command` (lines 156-204).  `agentRun` models the
outcome of `await agent.run(...)` inside `run_agent`; `s1` is the outcome of
the help/acknowledgment send, `s2` of the success-reply send, `s3` of the
error-reply send.  The acknowledgment send sits in its own catch-all `try`
(lines 184-191), so even a non-`SlackApiError` failure there is swallowed. -/
def handleCommand (pfx : String) (ack : Bool) (text user channel : String)
    (thread_ts : Option String) (agentRun : Except String AgentHistoryList)
    (s1 s2 s3 : SendOutcome) : CommandEffects :=
  let task := commandTask pfx text
  if isHelp task then
    match sendMessage s1 with
    | .ok _ => ⟨[⟨channel, helpText pfx, thread_ts, s1⟩], none, false, none⟩
    | .error m => ⟨[⟨channel, helpText pfx, thread_ts, s1⟩], none, false, some m⟩
  else
    let ackPosts : List SentCall :=
      if ack then [⟨channel, ackText user task, thread_ts, s1⟩] else []
    let msg := runAgent agentRun
    let sPost : SentCall := ⟨channel, successText user msg, thread_ts, s2⟩
    match sendMessage s2 with
    | .ok _ => ⟨ackPosts ++ [sPost], some task, false, none⟩
    | .error e =>
      let ePost : SentCall := ⟨channel, errorText e, thread_ts, s3⟩
      match sendMessage s3 with
      | .ok _ => ⟨ackPosts ++ [sPost, ePost], some task, true, none⟩
      | .error m => ⟨ackPosts ++ [sPost, ePost], some task, true, some m⟩

/-! ## Helper lemmas -/

/-- An empty text never starts with `pfx ++ " "` (the latter is nonempty). -/
theorem emptyNotStarts (pfx : String) : pyStartsWith "" (pfx ++ " ") = false := by
  simp [pyStartsWith, String.data_append]

theorem length_append_one (pfx : String) : (pfx ++ " ").length = pfx.length + 1 := by
  show (pfx ++ " ").data.length = pfx.data.length + 1
  simp [String.data_append]

theorem isHelp_iff (t : String) :
    isHelp t = true ↔ (pyLower t = "help" ∨ pyLower t = "--help" ∨ pyLower t = "-h") := by
  simp [isHelp, helpWords, List.contains]

theorem classify_parse_agree (pfx text : String) : classify pfx text = parseSpec pfx text := by
  by_cases h0 : text = ""
  · subst h0
    simp [classify, parseSpec, isCommandText, emptyNotStarts]
  · by_cases hs : pyStartsWith text (pfx ++ " ") = true
    · have hc : isCommandText pfx text = true := by
        simp [isCommandText, h0, hs]
      rw [classify, parseSpec, if_pos hc, if_pos hs]
      rw [length_append_one]
      have e : pyStrip (pyDrop text (pfx.length + 1)) = commandTask pfx text := rfl
      rw [e]
      by_cases hh : isHelp (commandTask pfx text) = true
      · rw [if_pos hh, if_pos ((isHelp_iff _).mp hh)]
      · rw [if_neg hh, if_neg (fun hd => hh ((isHelp_iff _).mpr hd))]
    · have hc : isCommandText pfx text = false := by
        simp [isCommandText, h0, hs]
      simp [classify, parseSpec, hc, hs]

/-- With a fresh nonempty id the seen-set update is `id :: seen`,
independently of the event contents. -/
theorem handleEvent_fst (pfx : String) (seen : List String) (e : SlackEvent)
    (id : String) (h : id ≠ "") (hm : id ∉ seen) :
    (handleEvent pfx seen e id).1 = id :: seen := by
  rw [handleEvent, if_neg h, if_neg hm]
  split
  · rfl
  split
  · rfl
  split <;> (dsimp only; split <;> rfl)

/-- The success reply always begins with a mention of the requesting user. -/
theorem successText_mentions (u m : String) :
    pyStartsWith (successText u m) ("<@" ++ u) = true := by
  show ((successText u m).data.take ("<@" ++ u).data.length == ("<@" ++ u).data) = true
  unfold successText
  simp only [String.data_append, List.append_assoc]
  rw [← List.append_assoc (String.data "<@") u.data]
  rw [← String.data_append "<@" u]
  rw [List.take_left]
  simp

/-- The error reply never begins with a mention. -/
theorem errorText_no_mention (m : String) :
    pyStartsWith (errorText m) "<@" = false := by
  show ((errorText m).data.take ("<@" : String).data.length == ("<@" : String).data) = false
  unfold errorText
  rw [String.data_append]
  rw [List.take_append_of_le_length (by decide)]
  decide

/-- The attempted sends of a non-help command, by success-send outcome. -/
theorem handleCommand_task_cases (pfx : String) (ack : Bool) (text user channel : String)
    (ts : Option String) (o : Except String AgentHistoryList) (s1 s3 : SendOutcome) (e : String)
    (h : isHelp (commandTask pfx text) = false) :
    ((handleCommand pfx ack text user channel ts o s1 .ok s3).posts.map SentCall.text =
      (if ack then [ackText user (commandTask pfx text)] else []) ++
        [successText user (runAgent o)]) ∧
    ((handleCommand pfx ack text user channel ts o s1 (.fatal e) s3).posts.map SentCall.text =
      (if ack then [ackText user (commandTask pfx text)] else []) ++
        [successText user (runAgent o), errorText e]) := by
  cases s3 <;> cases ack <;> simp [handleCommand, sendMessage, h]

/-! ## Claim theorems -/

/-- C1: the deduplication check admits an identifier exactly on the first
call — it returns true and records the id when fresh, returns false and does
nothing further on any later call with the same id — and `_handle_event`
returns immediately (seen-set unchanged, action `dropDuplicate`) whenever
the id is already in the seen-set, so a recorded identifier is never
processed twice. -/
theorem dedup_admits_first_only (seen : List String) (id : String) :
    (id ∉ seen → admitEvent seen id = (true, id :: seen)) ∧
    (id ∈ seen → admitEvent seen id = (false, seen)) ∧
    id ∈ (admitEvent seen id).2 ∧
    (admitEvent (admitEvent seen id).2 id).1 = false ∧
    (∀ (pfx : String) (e : SlackEvent), id ≠ "" → id ∈ seen →
      handleEvent pfx seen e id = (seen, .dropDuplicate)) := by
  by_cases h : id ∈ seen
  · refine ⟨fun hn => absurd h hn, fun _ => by simp [admitEvent, h], ?_, ?_, ?_⟩
    · simp [admitEvent, h]
    · simp [admitEvent, h]
    · intro pfx e hne hmem
      simp [handleEvent, hne, hmem]
  · refine ⟨fun _ => by simp [admitEvent, h], fun hm => absurd hm h, ?_, ?_, ?_⟩
    · simp [admitEvent, h]
    · simp [admitEvent, h]
    · intro pfx e hne hmem
      exact absurd hmem h

/-- C1 witness: a fresh identifier is admitted and recorded. -/
theorem dedup_admits_first_only_w :
    ("E1" ∉ ([] : List String)) ∧ admitEvent [] "E1" = (true, ["E1"]) :=
  ⟨by decide, (dedup_admits_first_only [] "E1").1 (by decide)⟩

/-- C2: the classification assembled from the code (`classify`) coincides
with the spec's parser description (`parseSpec`) on all inputs; in
particular the prefix followed by whitespace only yields the empty task,
which `_handle_command` forwards to `run_agent` unguarded. -/
theorem command_classification :
    (∀ pfx text, classify pfx text = parseSpec pfx text) ∧
    classify "$bu" "$bu   " = Command.task "" ∧
    (∀ (ack : Bool) (user channel : String) (ts : Option String)
       (o : Except String AgentHistoryList) (s1 s2 s3 : SendOutcome),
      (handleCommand "$bu" ack "$bu   " user channel ts o s1 s2 s3).delegated = some "") := by
  refine ⟨classify_parse_agree, by decide, ?_⟩
  intro ack user channel ts o s1 s2 s3
  have h : isHelp ("" : String) = false := by decide
  have e : commandTask "$bu" "$bu   " = "" := by decide
  cases s2 <;> cases s3 <;> cases ack <;> simp [handleCommand, sendMessage, h, e]

/-- C3: `run_agent` always resolves to a plain string: whatever the agent
run produces, the result is either the string of the successful body or the
error text carrying the original failure message — in particular a raised
exception with message `e` becomes `"Error during task execution: " ++ e`,
never a propagated failure. -/
theorem runAgent_always_resolves (o : Except String AgentHistoryList) :
    (∀ e, runAgent (.error e) = errorText e) ∧
    ((∃ m, runAgentBody o = .ok m ∧ runAgent o = m) ∨
     (∃ e, runAgentBody o = .error e ∧ runAgent o = errorText e)) := by
  constructor
  · intro e
    rfl
  · rcases hb : runAgentBody o with e | m
    · exact Or.inr ⟨e, rfl, by simp [runAgent, hb, errorText]⟩
    · exact Or.inl ⟨m, rfl, by simp [runAgent, hb]⟩

/-- C4 counterexample: the code checks only the `bot_message` subtype, never
the sender's identity.  Designating `"UBOT"` as the bot's own user id, a
message event authored by `"UBOT"` without the subtype is dispatched to the
command handler, refuting the claim that a notification whose sender is the
bot's own identity never reaches the parser. -/
theorem bot_identity_not_checked :
    ¬ (∀ (botUser pfx id : String) (seen : List String) (e : SlackEvent),
        (e.subtype = some "bot_message" ∨ e.user = some botUser) →
        ∀ t u c ts, (handleEvent pfx seen e id).2 ≠ EventAction.dispatch t u c ts) := by
  intro hclaim
  exact hclaim "UBOT" "$bu" "E1" []
    ⟨some "message", none, some "$bu hi", some "UBOT", some "C1", some "T1"⟩
    (Or.inr rfl) "$bu hi" "UBOT" "C1" (some "T1") (by decide)

/-- C4 amended: a notification whose subtype equals the bot-message marker
never reaches the command parser (is never dispatched); sender identity is
not consulted. -/
theorem bot_subtype_never_dispatched (pfx id : String) (seen : List String)
    (e : SlackEvent) (h : e.subtype = some "bot_message") :
    ∀ t u c ts, (handleEvent pfx seen e id).2 ≠ EventAction.dispatch t u c ts := by
  intro t u c ts
  rw [handleEvent]
  split
  · simp
  split
  · simp
  split
  · simp
  · simp [h]

/-- C4 witness: a bot-message-subtype event is not dispatched. -/
theorem bot_subtype_never_dispatched_w :
    (SlackEvent.mk (some "message") (some "bot_message") (some "$bu hi") (some "U9") (some "C1") (some "T1")).subtype = some "bot_message" ∧
    (handleEvent "$bu" []
      (SlackEvent.mk (some "message") (some "bot_message") (some "$bu hi") (some "U9") (some "C1") (some "T1")) "E1").2 ≠
      EventAction.dispatch "$bu hi" "U9" "C1" (some "T1") :=
  ⟨rfl, bot_subtype_never_dispatched "$bu" "E1" []
    (SlackEvent.mk (some "message") (some "bot_message") (some "$bu hi") (some "U9") (some "C1") (some "T1"))
    rfl "$bu hi" "U9" "C1" (some "T1")⟩

/-- C5 counterexample: when the success send raises, the error reply posted
by `_handle_command` (line 204) is `"Error during task execution: boom"`,
which does not begin with a mention of the requesting user `U1` — refuting
the claim that the error reply is prefixed the same way as the success
reply. -/
theorem error_reply_lacks_mention :
    (handleCommand "$bu" true "$bu do" "U1" "C1" none
        (.ok (AgentHistoryList.mk false [])) .ok (.fatal "boom") .ok).posts.map SentCall.text =
      [ackText "U1" "do",
       successText "U1" "Task completed, but no specific result was returned.",
       errorText "boom"] ∧
    errorText "boom" = "Error during task execution: boom" ∧
    pyStartsWith (errorText "boom") ("<@" ++ "U1") = false := by
  refine ⟨by decide, by decide, by decide⟩

/-- C5 amended: on success the reply is the result prefixed by a mention of
the requesting user; on error the reply is the bare error message, which is
not prefixed by any mention. -/
theorem task_reply_shapes (pfx : String) (ack : Bool) (text user channel : String)
    (ts : Option String) (o : Except String AgentHistoryList) (s1 s3 : SendOutcome) (e : String)
    (h : isHelp (commandTask pfx text) = false) :
    ((handleCommand pfx ack text user channel ts o s1 .ok s3).posts.map SentCall.text =
      (if ack then [ackText user (commandTask pfx text)] else []) ++
        [successText user (runAgent o)]) ∧
    ((handleCommand pfx ack text user channel ts o s1 (.fatal e) s3).posts.map SentCall.text =
      (if ack then [ackText user (commandTask pfx text)] else []) ++
        [successText user (runAgent o), errorText e]) ∧
    (∀ u m, pyStartsWith (successText u m) ("<@" ++ u) = true) ∧
    (∀ m, pyStartsWith (errorText m) "<@" = false) :=
  ⟨(handleCommand_task_cases pfx ack text user channel ts o s1 s3 e h).1,
   (handleCommand_task_cases pfx ack text user channel ts o s1 s3 e h).2,
   successText_mentions, errorText_no_mention⟩

/-- C5 witness: a successful task run posts the acknowledgment and the
mention-prefixed result. -/
theorem task_reply_shapes_w :
    isHelp (commandTask "$bu" "$bu do") = false ∧
    (handleCommand "$bu" true "$bu do" "U1" "C1" none
        (.ok (AgentHistoryList.mk false [])) .ok .ok .ok).posts.map SentCall.text =
      [ackText "U1" "do",
       successText "U1" "Task completed, but no specific result was returned."] :=
  ⟨by decide,
   (task_reply_shapes "$bu" true "$bu do" "U1" "C1" none
      (.ok (AgentHistoryList.mk false [])) .ok .ok "x" (by decide)).1⟩

/-- C6 counterexample: with the run done and the last recorded history item
having an empty `result` list, no extracted content is obtainable from the
last recorded result, yet `run_agent` returns the caught `IndexError`
message rather than the fixed fallback string — refuting the claim as
stated. -/
theorem done_empty_result_not_fallback :
    (AgentHistoryList.mk true [AgentHistoryItem.mk []]).is_done = true ∧
    (AgentHistoryList.mk true [AgentHistoryItem.mk []]).history.getLast? =
      some (AgentHistoryItem.mk []) ∧
    (AgentHistoryItem.mk []).result = [] ∧
    runAgent (.ok (AgentHistoryList.mk true [AgentHistoryItem.mk []])) =
      errorText "list index out of range" ∧
    runAgent (.ok (AgentHistoryList.mk true [AgentHistoryItem.mk []])) ≠
      "Task completed, but no specific result was returned." := by
  refine ⟨rfl, rfl, rfl, rfl, ?_⟩
  decide

/-- C6 amended: when the run is done and `history[-1].result[0]` exists,
`run_agent` returns the fixed fallback string if its `extracted_content` is
`None` and the content string itself otherwise; when the history or the
last item's result list is empty, the `IndexError` is caught and converted
to `"Error during task execution: list index out of range"` instead of the
fallback. -/
theorem runAgent_done_extraction :
    (∀ (r : AgentHistoryList) (last : AgentHistoryItem) (first : ActionResult),
      r.is_done = true → r.history.getLast? = some last →
      last.result.head? = some first →
        (first.extracted_content = none →
          runAgent (.ok r) = "Task completed, but no specific result was returned.") ∧
        (∀ s, first.extracted_content = some s → runAgent (.ok r) = s)) ∧
    (∀ r : AgentHistoryList, r.is_done = true → r.history.getLast? = none →
      runAgent (.ok r) = errorText "list index out of range") ∧
    (∀ (r : AgentHistoryList) (last : AgentHistoryItem), r.is_done = true →
      r.history.getLast? = some last → last.result.head? = none →
      runAgent (.ok r) = errorText "list index out of range") := by
  refine ⟨?_, ?_, ?_⟩
  · intro r last first hd hl hf
    constructor
    · intro hn
      simp [runAgent, runAgentBody, hd, hl, hf, hn]
    · intro s hs
      simp [runAgent, runAgentBody, hd, hl, hf, hs]
  · intro r hd hl
    simp [runAgent, runAgentBody, hd, hl, errorText]
  · intro r last hd hl hf
    simp [runAgent, runAgentBody, hd, hl, hf, errorText]

/-- C6 witness: extracted content is returned as-is on a completed run. -/
theorem runAgent_done_extraction_w :
    (AgentHistoryList.mk true [AgentHistoryItem.mk [ActionResult.mk (some "Top story: X")]]).is_done = true ∧
    runAgent (.ok (AgentHistoryList.mk true [AgentHistoryItem.mk [ActionResult.mk (some "Top story: X")]])) =
      "Top story: X" :=
  ⟨rfl, ((runAgent_done_extraction.1
      (AgentHistoryList.mk true [AgentHistoryItem.mk [ActionResult.mk (some "Top story: X")]])
      (AgentHistoryItem.mk [ActionResult.mk (some "Top story: X")])
      (ActionResult.mk (some "Top story: X")) rfl rfl rfl).2 "Top story: X" rfl)⟩

/-- C7: a `SlackApiError` raised by `chat_postMessage` is swallowed inside
`send_message`; with every send failing that way, `_handle_command` raises
nothing, never enters its error branch, and attempts exactly the same sends
with the same texts as when every send succeeds; and a `SlackApiError` on
the error-reporting send (after a fatal success-send failure) leaves every
observable of the command handling identical to a successful error-report
send. -/
theorem send_failure_swallowed :
    (∀ c, sendMessage (.apiError c) = .ok ()) ∧
    (∀ (pfx : String) (ack : Bool) (text user channel : String) (ts : Option String)
       (o : Except String AgentHistoryList) (c1 c2 c3 : String),
      (handleCommand pfx ack text user channel ts o (.apiError c1) (.apiError c2) (.apiError c3)).raised = none ∧
      (handleCommand pfx ack text user channel ts o (.apiError c1) (.apiError c2) (.apiError c3)).errorBranch = false ∧
      (handleCommand pfx ack text user channel ts o (.apiError c1) (.apiError c2) (.apiError c3)).posts.map SentCall.text =
        (handleCommand pfx ack text user channel ts o .ok .ok .ok).posts.map SentCall.text ∧
      (handleCommand pfx ack text user channel ts o (.apiError c1) (.apiError c2) (.apiError c3)).delegated =
        (handleCommand pfx ack text user channel ts o .ok .ok .ok).delegated) ∧
    (∀ (pfx : String) (ack : Bool) (text user channel : String) (ts : Option String)
       (o : Except String AgentHistoryList) (s1 : SendOutcome) (e c : String),
      (isHelp (commandTask pfx text) = false →
        (handleCommand pfx ack text user channel ts o s1 (.fatal e) (.apiError c)).raised = none) ∧
      (handleCommand pfx ack text user channel ts o s1 (.fatal e) (.apiError c)).raised =
        (handleCommand pfx ack text user channel ts o s1 (.fatal e) .ok).raised ∧
      (handleCommand pfx ack text user channel ts o s1 (.fatal e) (.apiError c)).posts.map SentCall.text =
        (handleCommand pfx ack text user channel ts o s1 (.fatal e) .ok).posts.map SentCall.text ∧
      (handleCommand pfx ack text user channel ts o s1 (.fatal e) (.apiError c)).errorBranch =
        (handleCommand pfx ack text user channel ts o s1 (.fatal e) .ok).errorBranch ∧
      (handleCommand pfx ack text user channel ts o s1 (.fatal e) (.apiError c)).delegated =
        (handleCommand pfx ack text user channel ts o s1 (.fatal e) .ok).delegated) := by
  refine ⟨fun c => rfl, ?_, ?_⟩
  · intro pfx ack text user channel ts o c1 c2 c3
    by_cases h : isHelp (commandTask pfx text) = true <;>
      cases ack <;> simp [handleCommand, sendMessage, h]
  · intro pfx ack text user channel ts o s1 e c
    by_cases h : isHelp (commandTask pfx text) = true <;>
      cases ack <;> simp [handleCommand, sendMessage, h]

/-- C7 witness: an API error while reporting an error is not re-raised. -/
theorem send_failure_swallowed_w :
    isHelp (commandTask "$bu" "$bu do") = false ∧
    (handleCommand "$bu" true "$bu do" "U1" "C1" none
        (.ok (AgentHistoryList.mk false [])) .ok (.fatal "boom") (.apiError "ratelimited")).raised = none :=
  ⟨by decide,
   (send_failure_swallowed.2.2 "$bu" true "$bu do" "U1" "C1" none
      (.ok (AgentHistoryList.mk false [])) .ok "boom" "ratelimited").1 (by decide)⟩

/-- C8: `_handle_event` records a non-empty identifier before examining the
event's kind, subtype or text — the updated seen-set does not depend on the
event contents, always contains the id, and any redelivery with the same id
is dropped as a duplicate even if the first delivery was never acted on. -/
theorem seen_recorded_before_inspection (pfx : String) (seen : List String)
    (e e2 : SlackEvent) (id : String) (h : id ≠ "") :
    (handleEvent pfx seen e id).1 = (handleEvent pfx seen e2 id).1 ∧
    id ∈ (handleEvent pfx seen e id).1 ∧
    (handleEvent pfx (handleEvent pfx seen e id).1 e2 id).2 = .dropDuplicate := by
  by_cases hm : id ∈ seen
  · refine ⟨by simp [handleEvent, h, hm], by simp [handleEvent, h, hm], by simp [handleEvent, h, hm]⟩
  · rw [handleEvent_fst pfx seen e id h hm, handleEvent_fst pfx seen e2 id h hm]
    refine ⟨rfl, List.mem_cons_self id seen, ?_⟩
    have : id ∈ id :: seen := List.mem_cons_self id seen
    simp [handleEvent, h, this]

/-- C8 witness: a non-message event burns its id; the redelivered command is
dropped as a duplicate. -/
theorem seen_recorded_before_inspection_w :
    ("E1" : String) ≠ "" ∧
    (handleEvent "$bu" [] ⟨some "reaction_added", none, none, none, none, none⟩ "E1").1 =
      (handleEvent "$bu" [] ⟨some "message", none, some "$bu hi", some "U1", some "C1", some "T1"⟩ "E1").1 ∧
    (handleEvent "$bu"
      (handleEvent "$bu" [] ⟨some "reaction_added", none, none, none, none, none⟩ "E1").1
      ⟨some "message", none, some "$bu hi", some "U1", some "C1", some "T1"⟩ "E1").2 = .dropDuplicate := by
  refine ⟨by decide, ?_, ?_⟩
  · exact (seen_recorded_before_inspection "$bu" [] ⟨some "reaction_added", none, none, none, none, none⟩ ⟨some "message", none, some "$bu hi", some "U1", some "C1", some "T1"⟩ "E1" (by decide)).1
  · exact (seen_recorded_before_inspection "$bu" [] ⟨some "reaction_added", none, none, none, none, none⟩ ⟨some "message", none, some "$bu hi", some "U1", some "C1", some "T1"⟩ "E1" (by decide)).2.2

/-- C9: when the agent run returns without raising but its history does not
report done, `run_agent` returns the same fixed fallback string. -/
theorem runAgent_not_done_fallback (r : AgentHistoryList) (h : r.is_done = false) :
    runAgent (.ok r) = "Task completed, but no specific result was returned." := by
  simp [runAgent, runAgentBody, h]

/-- C9 witness: a non-done run yields the fallback string. -/
theorem runAgent_not_done_fallback_w :
    (AgentHistoryList.mk false []).is_done = false ∧
    runAgent (.ok (AgentHistoryList.mk false [])) =
      "Task completed, but no specific result was returned." :=
  ⟨rfl, runAgent_not_done_fallback (AgentHistoryList.mk false []) rfl⟩

/-- C10: when the agent run raises with message `m`, the reply posted is the
success-branch message `"<@user> Task completed:\n\nError during task
execution: m"`, the dedicated error branch is not executed, and in general
the error branch runs exactly when the success-reply send itself raises a
non-`SlackApiError` exception. -/
theorem agent_failure_reported_in_success_reply (pfx : String) (ack : Bool)
    (text user channel m : String) (ts : Option String) (s1 s3 : SendOutcome)
    (h : isHelp (commandTask pfx text) = false) :
    ((handleCommand pfx ack text user channel ts (.error m) s1 .ok s3).posts.map SentCall.text =
      (if ack then [ackText user (commandTask pfx text)] else []) ++
        [successText user (errorText m)]) ∧
    successText user (errorText m) =
      "<@" ++ user ++ "> Task completed:\n\nError during task execution: " ++ m ∧
    (handleCommand pfx ack text user channel ts (.error m) s1 .ok s3).errorBranch = false ∧
    (∀ (o : Except String AgentHistoryList) (s2 : SendOutcome),
      (handleCommand pfx ack text user channel ts o s1 s2 s3).errorBranch = true ↔
        ∃ e2, s2 = SendOutcome.fatal e2) := by
  refine ⟨?_, ?_, ?_, ?_⟩
  · have := (handleCommand_task_cases pfx ack text user channel ts (.error m) s1 s3 "x" h).1
    rw [this]
    rfl
  · show (("<@" ++ user) ++ "> Task completed:\n\n") ++
        ("Error during task execution: " ++ m) = _
    rw [← String.append_assoc, String.append_assoc ("<@" ++ user)]
    have lit : ("> Task completed:\n\n" : String) ++ "Error during task execution: " =
        "> Task completed:\n\nError during task execution: " := by decide
    rw [lit]
  · cases ack <;> simp [handleCommand, sendMessage, h]
  · intro o s2
    cases s2 <;> cases s3 <;> cases ack <;> simp [handleCommand, sendMessage, h]

/-- C10 witness: a delegation failure is reported inside the success reply. -/
theorem agent_failure_reported_in_success_reply_w :
    isHelp (commandTask "$bu" "$bu do") = false ∧
    (handleCommand "$bu" false "$bu do" "U1" "C1" none
        (.error "network timeout") .ok .ok .ok).posts.map SentCall.text =
      [successText "U1" (errorText "network timeout")] :=
  ⟨by decide,
   (agent_failure_reported_in_success_reply "$bu" false "$bu do" "U1" "C1"
      "network timeout" none .ok .ok (by decide)).1⟩

end SlackBot
